import Mathlib

/-!
Verification of the OCT command-line tool (`tools/oct.py`): a shallow
embedding in Lean 4 of its three operations — `new` (identifier
allocation), `search` (literal substring search) and `similar`
(TF-IDF / cosine-similarity ranking) — together with theorems settling
the specification's claims about them.

Modelling conventions:
* A directory is a list of entries in enumeration (glob) order.  An
  entry has a name, an `isFile` flag, and `content : Option String`
  where `none` models a file whose read raises an exception.
* Randomness (`secrets.choice`) is modelled by an explicit stream of
  choices passed as a function argument.
* Floating point arithmetic is modelled over `ℝ`; `numpy`/`sklearn`
  numeric kernels are embedded by their documented real-valued
  semantics.
-/

namespace Oct

/-! ### Python's substring containment (`needle in hay`) -/

/-- `leadsWith needle hay`: `hay` starts with `needle` (character lists). -/
def leadsWith : List Char → List Char → Bool
  | [], _ => true
  | _ :: _, [] => false
  | a :: as, b :: bs => a == b && leadsWith as bs

/-- `substrAt needle hay`: `needle` occurs contiguously somewhere in `hay`;
this is Python's `needle in hay` on strings (the empty needle matches). -/
def substrAt (needle : List Char) : List Char → Bool
  | [] => needle.isEmpty
  | b :: bs => leadsWith needle (b :: bs) || substrAt needle bs

/-- Python's `needle in hay` for `String`s. -/
def pyIn (needle hay : String) : Bool :=
  substrAt needle.data hay.data

/-- Python's `str.lower()`, character-wise. -/
def lowerStr (s : String) : String :=
  String.mk (s.data.map Char.toLower)

/-- Python's `str.strip()`: drop leading and trailing whitespace. -/
def pyStrip (s : String) : String :=
  String.mk (((s.data.dropWhile Char.isWhitespace).reverse.dropWhile Char.isWhitespace).reverse)

/-! ### Identifier generation (`CROCKFORD_BASE32`, `generate_crockford_base32_id`) -/

/-- The alphabet constant from the source, verbatim. -/
def CROCKFORD_BASE32 : String := "0123456789ABCDEFGHJKMNPQRSTVWXYZ"

/-- `generate_crockford_base32_id(length)` with `secrets.choice` modelled by
the explicit choice stream `choice : Nat → Fin 32` (position `i` of the
result is the alphabet character selected by `choice i`). -/
def generate_crockford_base32_id (length : Nat) (choice : Nat → Fin 32) : String :=
  String.mk ((List.range length).map (fun i => CROCKFORD_BASE32.data.getD (choice i).val ' '))

/-! ### The `new` command (allocator) -/

/-- A file system directory for the allocator: list of `(name, content)`. -/
abbrev FS := List (String × String)

/-- Outcome of the `new` command: a created identifier, or the
exhaustion error (which the program reports before calling `exit(1)`). -/
inductive NewOutcome where
  | created (id : String)
  | exhausted
  deriving DecidableEq, Repr

/-- The retry loop of `new`: starting at attempt index `attempt` with
`fuel` attempts remaining, draw `ids attempt`, test `filepath.exists()`
(exact, case-sensitive name lookup), and either `touch` an empty file and
return, or retry. Returns the outcome together with the directory state. -/
def newAux (ids : Nat → String) (fs : FS) : Nat → Nat → NewOutcome × FS
  | _, 0 => (.exhausted, fs)
  | attempt, fuel + 1 =>
    if ids attempt ∈ fs.map Prod.fst then
      newAux ids fs (attempt + 1) fuel
    else
      (.created (ids attempt), fs ++ [(ids attempt, "")])

/-- `max_attempts` from the source. -/
def max_attempts : Nat := 1000

/-- The `new` command body, lines 72–91 of `oct.py`: try up to
`max_attempts` freshly drawn identifiers against the directory. -/
def newCmd (ids : Nat → String) (fs : FS) : NewOutcome × FS :=
  newAux ids fs 0 max_attempts

/-! ### The `search` command -/

/-- An immediate directory entry as seen by `glob("*")`. -/
structure Entry where
  name : String
  isFile : Bool
  content : Option String
  deriving DecidableEq, Repr

/-- What a single output line of `search` reports for a matching entry. -/
inductive MatchKind where
  | byFilename
  | byContent (content : String)
  | readError
  deriving DecidableEq, Repr

/-- The per-entry logic of `search` (lines 117–129): filename test first;
`elif` regular file: read, content test; read failure reported. -/
def searchEntry (query : String) (e : Entry) : Option MatchKind :=
  if pyIn (lowerStr query) (lowerStr e.name) then
    some .byFilename
  else if e.isFile then
    match e.content with
    | some c => if pyIn (lowerStr query) (lowerStr c) then some (.byContent c) else none
    | none => some .readError
  else
    none

/-- The directory scan of `search`: one reported line per entry that
matches (or fails to read), in enumeration order. -/
def search (query : String) (dir : List Entry) : List (String × MatchKind) :=
  dir.filterMap (fun e => (searchEntry query e).map (fun m => (e.name, m)))

/-- Top-level outcome of the `search` command. -/
inductive SearchOutcome where
  | dirNotFound
  | results (rs : List (String × MatchKind))
  deriving DecidableEq, Repr

/-- The `search` command: `none` as directory models a non-existent
search directory (lines 114–116 print "Directory not found" and return). -/
def searchCmd (query : String) (dir : Option (List Entry)) : SearchOutcome :=
  match dir with
  | none => .dirNotFound
  | some entries => .results (search query entries)

/-! ### Tokenization (sklearn `TfidfVectorizer` defaults) -/

/-- A word character of the default token pattern `\b\w\w+\b`. -/
def isWordChar (c : Char) : Bool := c.isAlphanum || c == '_'

/-- Maximal runs of word characters in a character list (`acc` holds the
current run, reversed). -/
def wordRuns (acc : List Char) : List Char → List (List Char)
  | [] => if acc.isEmpty then [] else [acc.reverse]
  | c :: cs =>
    if isWordChar c then wordRuns (c :: acc) cs
    else if acc.isEmpty then wordRuns [] cs
    else acc.reverse :: wordRuns [] cs

/-- sklearn's default analyzer: lowercase, then keep maximal word-character
runs of length at least 2. -/
def tokenize (s : String) : List String :=
  ((wordRuns [] (lowerStr s).data).filter (fun r => 2 ≤ r.length)).map String.mk

/-- Raw term frequency of term `t` in document `d`. -/
def tf (d t : String) : Nat := (tokenize d).count t

/-- Document frequency of `t` across the document list (with multiplicity
of duplicate documents, as sklearn counts rows). -/
def df (docs : List String) (t : String) : Nat :=
  (docs.filter (fun d => (tokenize d).contains t)).length

/-- The fitted vocabulary: every distinct token of any document. -/
def vocab (docs : List String) : List String :=
  (docs.map tokenize).flatten.dedup

/-! ### TF-IDF weighting (sklearn defaults: `smooth_idf=True`, `norm="l2"`) -/

/-- Smoothed inverse document frequency:
`log((1 + N) / (1 + df(t))) + 1`, `N` the number of documents. -/
noncomputable def idf (docs : List String) (t : String) : ℝ :=
  Real.log ((1 + docs.length) / (1 + df docs t)) + 1

/-- Un-normalized TF-IDF weight of term `t` in document `d`. -/
noncomputable def tfidfRaw (docs : List String) (d t : String) : ℝ :=
  (tf d t : ℝ) * idf docs t

/-- Squared L2 norm of `d`'s raw TF-IDF vector over the vocabulary. -/
noncomputable def sqNorm (docs : List String) (d : String) : ℝ :=
  ((vocab docs).map (fun t => tfidfRaw docs d t ^ 2)).sum

/-- L2 norm of `d`'s raw TF-IDF vector. -/
noncomputable def l2norm (docs : List String) (d : String) : ℝ :=
  Real.sqrt (sqNorm docs d)

/-- The transformed (L2-normalized) TF-IDF vector of document `d`, as a
function of the term. sklearn leaves an all-zero row at zero, which the
Lean convention `x / 0 = 0` reproduces. -/
noncomputable def tfidfVec (docs : List String) (d t : String) : ℝ :=
  tfidfRaw docs d t / l2norm docs d

/-- Dot product of two term-indexed vectors over the term list `ts`. -/
noncomputable def dotOver (ts : List String) (u v : String → ℝ) : ℝ :=
  (ts.map (fun t => u t * v t)).sum

/-- `sklearn.metrics.pairwise.cosine_similarity` on the rows for `a` and
`b`: dot product of the two rows each divided by its own L2 norm; a zero
row keeps its zeros, giving similarity 0 (reproduced by `0 / 0 = 0`). -/
noncomputable def cosineSim (docs : List String) (a b : String) : ℝ :=
  dotOver (vocab docs) (tfidfVec docs a) (tfidfVec docs b) /
    (Real.sqrt (dotOver (vocab docs) (tfidfVec docs a) (tfidfVec docs a)) *
      Real.sqrt (dotOver (vocab docs) (tfidfVec docs b) (tfidfVec docs b)))

/-- `cosine_similarity(vectors[0:1], vectors[1:]).flatten()`: the score of
each corpus text against the query, with the model fitted on
`[query] + texts`. -/
noncomputable def similarScores (query : String) (texts : List String) : List ℝ :=
  texts.map (fun d => cosineSim (query :: texts) query d)

/-! ### Ranking (`sorted(..., key=lambda x: x[1], reverse=True)` + threshold) -/

/-- Insert into a descending-by-score list, before the first element of
score at most the inserted one: the insertion step of a stable
descending sort by the second component. -/
noncomputable def insertDesc (x : String × ℝ) : List (String × ℝ) → List (String × ℝ)
  | [] => [x]
  | y :: ys => if y.2 ≤ x.2 then x :: y :: ys else y :: insertDesc x ys

/-- Stable descending sort by score, the extensional behaviour of
Python's stable `sorted(..., key=lambda x: x[1], reverse=True)`. -/
noncomputable def sortDesc : List (String × ℝ) → List (String × ℝ)
  | [] => []
  | x :: xs => insertDesc x (sortDesc xs)

/-- `zip(filepaths, similarities)` (names stand in for paths). -/
noncomputable def similarPairs (query : String) (names : List String) (texts : List String) :
    List (String × ℝ) :=
  names.zip (similarScores query texts)

/-- The printed results of `similar`: sort all pairs by score descending
(stable), then keep those with `score >= threshold`. -/
noncomputable def similarResults (query : String) (names : List String) (texts : List String)
    (thr : ℝ) : List (String × ℝ) :=
  (sortDesc (similarPairs query names texts)).filter (fun r => decide (thr ≤ r.2))

/-- Top-level outcome of the `similar` command. `emptyVocabError` models
the uncaught `ValueError` that `sklearn`'s `TfidfVectorizer.fit` raises
when no document contributes any token (empty vocabulary); `oct.py` does
not handle it, so it propagates and aborts the process. -/
inductive SimilarOutcome where
  | dirNotFound
  | noReadableFiles
  | emptyVocabError
  | results (rs : List (String × ℝ))

/-- The `similar` command, lines 163–196: missing directory check, corpus
load (regular readable files only, each stripped), empty-corpus early
exit, TF-IDF fit (which raises on an empty vocabulary), scoring,
ranking and thresholding. -/
noncomputable def similarCmd (query : String) (thr : ℝ) (dir : Option (List Entry)) :
    SimilarOutcome :=
  match dir with
  | none => .dirNotFound
  | some entries =>
    let readable := entries.filter (fun e => e.isFile && e.content.isSome)
    let names := readable.map (fun e => e.name)
    let texts := readable.map (fun e => pyStrip (e.content.getD ""))
    if texts.isEmpty then .noReadableFiles
    else if (vocab (query :: texts)).isEmpty then .emptyVocabError
    else .results (similarResults query names texts thr)

/-! ### Spec-side similarity pipeline

Definitions written from the specification's own words (§4.3), to be
compared with the source-side pipeline above: component = term frequency
times `log((1+N)/(1+df))+1`, L2-normalize each vector, and — since the
vectors are normalized — score by the plain dot product. -/

/-- Spec §4.3 step 4: a document's vector component for a term. -/
noncomputable def spec_weight (docs : List String) (d t : String) : ℝ :=
  (tf d t : ℝ) * (Real.log ((1 + docs.length) / (1 + df docs t)) + 1)

/-- Spec §4.3 step 4: the L2-normalized document vector. -/
noncomputable def spec_vec (docs : List String) (d t : String) : ℝ :=
  spec_weight docs d t / Real.sqrt (((vocab docs).map (fun s => spec_weight docs d s ^ 2)).sum)

/-- Spec §4.3 step 5: cosine similarity of the query's vector against
every corpus vector, reduced to the dot product because the vectors are
already L2-normalized (zero vectors yield 0 by convention). -/
noncomputable def spec_scores (query : String) (texts : List String) : List ℝ :=
  texts.map (fun d =>
    dotOver (vocab (query :: texts)) (spec_vec (query :: texts) query)
      (spec_vec (query :: texts) d))

/-! ## Allocator lemmas -/

/-- A successful run of the retry loop returns an identifier absent from
the directory and appends exactly the one empty file for it. -/
theorem newAux_created_spec (fuel : Nat) :
    ∀ (attempt : Nat) (ids : Nat → String) (fs : FS) (id : String) (fs2 : FS),
      newAux ids fs attempt fuel = (NewOutcome.created id, fs2) →
      id ∉ fs.map Prod.fst ∧ fs2 = fs ++ [(id, "")] := by
  induction fuel with
  | zero =>
    intro attempt ids fs id fs2 h
    exact absurd h (by simp [newAux])
  | succ n ih =>
    intro attempt ids fs id fs2 h
    unfold newAux at h
    by_cases hc : ids attempt ∈ fs.map Prod.fst
    · rw [if_pos hc] at h
      exact ih (attempt + 1) ids fs id fs2 h
    · rw [if_neg hc] at h
      obtain ⟨h1, h2⟩ := Prod.mk.injEq .. ▸ h
      cases h1
      exact ⟨hc, h2.symm⟩

/-- If every identifier drawn in the remaining window collides, the loop
exhausts its fuel and leaves the directory untouched. -/
theorem newAux_exhausted_spec (fuel : Nat) :
    ∀ (attempt : Nat) (ids : Nat → String) (fs : FS),
      (∀ k, attempt ≤ k → k < attempt + fuel → ids k ∈ fs.map Prod.fst) →
      newAux ids fs attempt fuel = (NewOutcome.exhausted, fs) := by
  induction fuel with
  | zero => intro attempt ids fs _; simp [newAux]
  | succ n ih =>
    intro attempt ids fs h
    unfold newAux
    rw [if_pos (h attempt le_rfl (by omega))]
    exact ih (attempt + 1) ids fs (fun k hk1 hk2 => h k (by omega) (by omega))

/-! ## Claim theorems -/

/-- C6: whenever allocation succeeds, the returned identifier matches no
filename that existed in the target directory at check time, and an
empty file with that identifier is created there before returning. -/
theorem new_success_fresh_and_creates_empty_file :
    ∀ (ids : Nat → String) (fs : FS) (id : String) (fs2 : FS),
      newCmd ids fs = (NewOutcome.created id, fs2) →
      id ∉ fs.map Prod.fst ∧ fs2 = fs ++ [(id, "")] := by
  intro ids fs id fs2 h
  exact newAux_created_spec max_attempts 0 ids fs id fs2 h

/-- C6 witness: a concrete successful allocation. -/
theorem new_success_fresh_and_creates_empty_file_witness :
    "AAAAAA" ∉ ([("BBBBBB", "x")] : FS).map Prod.fst ∧
      ([("BBBBBB", "x"), ("AAAAAA", "")] : FS) = [("BBBBBB", "x")] ++ [("AAAAAA", "")] :=
  new_success_fresh_and_creates_empty_file (fun _ => "AAAAAA") [("BBBBBB", "x")] "AAAAAA"
    [("BBBBBB", "x"), ("AAAAAA", "")] (by decide)

/-- C7: if every candidate drawn in the first 1000 attempts collides with
an existing filename, `new` ends in the exhaustion error (reported, then
`exit(1)`) after its bound of exactly `max_attempts = 1000` attempts,
with the directory left unchanged (no file created). -/
theorem new_exhausts_after_1000_collisions :
    ∀ (ids : Nat → String) (fs : FS),
      ((∀ k, k < 1000 → ids k ∈ fs.map Prod.fst) →
        newCmd ids fs = (NewOutcome.exhausted, fs)) ∧
      max_attempts = 1000 := by
  intro ids fs
  refine ⟨fun h => ?_, rfl⟩
  exact newAux_exhausted_spec max_attempts 0 ids fs
    (fun k _ hk2 => h k (by simpa [max_attempts] using hk2))

/-- C7 witness: a directory holding the only identifier the stream ever
draws exhausts the allocator. -/
theorem new_exhausts_after_1000_collisions_witness :
    newCmd (fun _ => "X") [("X", "c")] = (NewOutcome.exhausted, [("X", "c")]) :=
  (new_exhausts_after_1000_collisions (fun _ => "X") [("X", "c")]).1
    (fun k _ => by simp)

/-- C8: with a non-existent target directory, both `search` and `similar`
report the directory-not-found condition and return normally (no
exception), for every query and threshold. -/
theorem missing_directory_reports_not_found :
    ∀ (q : String) (thr : ℝ),
      searchCmd q none = SearchOutcome.dirNotFound ∧
      similarCmd q thr none = SimilarOutcome.dirNotFound := by
  intro q thr
  exact ⟨rfl, rfl⟩

/-- C9: `similar` is deterministic — two invocations on the same query,
threshold, and directory state (same contents in the same enumeration
order) produce identical outcomes; the computation has no hidden state. -/
theorem similar_deterministic :
    ∀ (q1 q2 : String) (t1 t2 : ℝ) (d1 d2 : Option (List Entry)),
      q1 = q2 → t1 = t2 → d1 = d2 → similarCmd q1 t1 d1 = similarCmd q2 t2 d2 := by
  intro q1 q2 t1 t2 d1 d2 h1 h2 h3
  rw [h1, h2, h3]

/-- C9 witness: two identical concrete invocations agree. -/
theorem similar_deterministic_witness :
    similarCmd "kidney" 0 (some [⟨"A", true, some "kidney disease"⟩]) =
      similarCmd "kidney" 0 (some [⟨"A", true, some "kidney disease"⟩]) :=
  similar_deterministic "kidney" "kidney" 0 0
    (some [⟨"A", true, some "kidney disease"⟩])
    (some [⟨"A", true, some "kidney disease"⟩]) rfl rfl rfl

/-- C4 (divergence witness): on a directory whose single readable file is
whitespace-only and a query with no tokens, `similar` reaches
`TfidfVectorizer.fit` with an empty vocabulary, whose `ValueError` is
not caught by `oct.py` — the embedded command ends in the uncaught-error
outcome instead of returning normally. -/
theorem similar_empty_vocabulary_error :
    similarCmd "??" 0 (some [⟨"ABC123", true, some "   "⟩]) =
      SimilarOutcome.emptyVocabError := rfl

/-- Every alphabet position selected by a choice lies in the alphabet. -/
theorem alphabet_getD_mem :
    ∀ i : Fin 32, CROCKFORD_BASE32.data.contains (CROCKFORD_BASE32.data.getD i.val ' ') = true := by
  decide

/-- C2 counterexample: the alphabet string of the source is genuine
Crockford Base32 and does contain the digits `0` and `1` (the comment in
the source and the spec wrongly list them as excluded); a generator run
can return `"000000"`. -/
theorem crockford_contains_zero_and_one :
    '0' ∈ CROCKFORD_BASE32.data ∧ '1' ∈ CROCKFORD_BASE32.data ∧
      generate_crockford_base32_id 6 (fun _ => (0 : Fin 32)) = "000000" := by
  decide

/-- C2 (amended): every generated identifier is exactly 6 characters,
each drawn from the 32-symbol alphabet; the alphabet has 32 distinct
symbols and excludes the visually ambiguous letters `O`, `I`, `L`, `U`
(while containing the digits `0` and `1`). -/
theorem generate_id_length_and_alphabet :
    ∀ choice : Nat → Fin 32,
      (generate_crockford_base32_id 6 choice).length = 6 ∧
      ((generate_crockford_base32_id 6 choice).data.all
        (fun c => CROCKFORD_BASE32.data.contains c)) = true ∧
      CROCKFORD_BASE32.data.length = 32 ∧
      CROCKFORD_BASE32.data.Nodup ∧
      'O' ∉ CROCKFORD_BASE32.data ∧ 'I' ∉ CROCKFORD_BASE32.data ∧
      'L' ∉ CROCKFORD_BASE32.data ∧ 'U' ∉ CROCKFORD_BASE32.data := by
  intro choice
  refine ⟨?_, ?_, by decide, by decide, by decide, by decide, by decide, by decide⟩
  · simp only [generate_crockford_base32_id, String.length_mk, List.length_map,
      List.length_range]
  · rw [List.all_eq_true]
    intro c hc
    simp only [generate_crockford_base32_id, List.mem_map, List.mem_range] at hc
    obtain ⟨i, _, rfl⟩ := hc
    exact alphabet_getD_mem (choice i)

/-- C3 counterexample: a file whose name and content both contain the
query is reported by filename only — the content criterion is true but
never reported, so the two tests are not applied independently and no
output ever indicates "both". -/
theorem search_both_match_reports_filename_only :
    pyIn (lowerStr "diabetes") (lowerStr "diabetes info") = true ∧
      search "diabetes" [⟨"diabetes", true, some "diabetes info"⟩] =
        [("diabetes", MatchKind.byFilename)] := by
  decide

/-- C3 (amended): `search` tests the filename first; the content of a
regular file is tested only when the filename does not match, and any
content-match report implies the filename test failed — each match line
indicates exactly one criterion, never both. -/
theorem search_filename_precedence :
    ∀ (q : String) (e : Entry),
      (pyIn (lowerStr q) (lowerStr e.name) = true →
        searchEntry q e = some MatchKind.byFilename) ∧
      (pyIn (lowerStr q) (lowerStr e.name) = false → e.isFile = true →
        ∀ c, e.content = some c →
          searchEntry q e =
            (if pyIn (lowerStr q) (lowerStr c) then some (MatchKind.byContent c) else none)) ∧
      (∀ c, searchEntry q e = some (MatchKind.byContent c) →
        pyIn (lowerStr q) (lowerStr e.name) = false) := by
  intro q e
  refine ⟨fun h => ?_, fun h hf c hc => ?_, fun c h => ?_⟩
  · simp [searchEntry, h]
  · simp [searchEntry, h, hf, hc]
  · by_cases hn : pyIn (lowerStr q) (lowerStr e.name) = true
    · simp [searchEntry, hn] at h
    · exact Bool.eq_false_iff.mpr hn

/-- C3 witness: concrete filename-only and content-only matches. -/
theorem search_filename_precedence_witness :
    searchEntry "ab" ⟨"xABy", true, some "zz"⟩ = some MatchKind.byFilename ∧
      searchEntry "ab" ⟨"zz", true, some "xABy"⟩ = some (MatchKind.byContent "xABy") := by
  constructor
  · exact (search_filename_precedence "ab" ⟨"xABy", true, some "zz"⟩).1 (by decide)
  · exact ((search_filename_precedence "ab" ⟨"zz", true, some "xABy"⟩).2.1
      (by decide) rfl "xABy" rfl).trans (by decide)

/-- C10: the filename test is applied to every immediate entry —
subdirectories and other non-regular entries included — a filename match
is reported regardless of the entry's kind or content (the content is
never examined once the name matches), and only regular files can yield
content or read-error reports. -/
theorem search_checks_every_entry :
    ∀ (q : String) (dir : List Entry) (e : Entry),
      (e ∈ dir → pyIn (lowerStr q) (lowerStr e.name) = true →
        (e.name, MatchKind.byFilename) ∈ search q dir) ∧
      (pyIn (lowerStr q) (lowerStr e.name) = true →
        searchEntry q e = some MatchKind.byFilename) ∧
      (∀ b c b2 c2, pyIn (lowerStr q) (lowerStr e.name) = true →
        searchEntry q ⟨e.name, b, c⟩ = searchEntry q ⟨e.name, b2, c2⟩) ∧
      (e.isFile = false →
        searchEntry q e ≠ some MatchKind.readError ∧
          ∀ c, searchEntry q e ≠ some (MatchKind.byContent c)) := by
  intro q dir e
  refine ⟨fun hmem hname => ?_, fun hname => ?_, fun b c b2 c2 hname => ?_, fun hfile => ?_⟩
  · exact List.mem_filterMap.mpr ⟨e, hmem, by simp [searchEntry, hname]⟩
  · simp [searchEntry, hname]
  · simp [searchEntry, hname]
  · by_cases hn : pyIn (lowerStr q) (lowerStr e.name) = true
    · constructor
      · simp [searchEntry, hn]
      · intro c; simp [searchEntry, hn]
    · have hn2 : pyIn (lowerStr q) (lowerStr e.name) = false := Bool.eq_false_iff.mpr hn
      constructor
      · simp [searchEntry, hn2, hfile]
      · intro c; simp [searchEntry, hn2, hfile]

/-! ## TF-IDF lemmas: cosine similarity of L2-normalized vectors -/

/-- The squared norm is a sum of squares, hence nonnegative. -/
theorem sqNorm_nonneg (docs : List String) (d : String) : 0 ≤ sqNorm docs d := by
  apply List.sum_nonneg
  intro x hx
  obtain ⟨t, _, rfl⟩ := List.mem_map.mp hx
  positivity

/-- A document with zero norm has an all-zero transformed vector. -/
theorem tfidfVec_of_sqNorm_zero (docs : List String) (d : String)
    (h : sqNorm docs d = 0) : ∀ t, tfidfVec docs d t = 0 := by
  intro t
  unfold tfidfVec l2norm
  rw [h, Real.sqrt_zero, div_zero]

/-- Dot product with an all-zero left factor vanishes. -/
theorem dotOver_zero_left (V : List String) (u v : String → ℝ) (h : ∀ t, u t = 0) :
    dotOver V u v = 0 := by
  unfold dotOver
  rw [List.map_congr_left (fun t _ => by rw [h t, zero_mul])]
  simp

/-- Dot product with an all-zero right factor vanishes. -/
theorem dotOver_zero_right (V : List String) (u v : String → ℝ) (h : ∀ t, v t = 0) :
    dotOver V u v = 0 := by
  unfold dotOver
  rw [List.map_congr_left (fun t _ => by rw [h t, mul_zero])]
  simp

/-- Self dot product of a transformed vector over the vocabulary: `1` for
a document with nonzero norm, `0` for an all-zero document. -/
theorem dotOver_self_tfidfVec (docs : List String) (d : String) :
    dotOver (vocab docs) (tfidfVec docs d) (tfidfVec docs d) =
      if sqNorm docs d = 0 then 0 else 1 := by
  have hS : 0 ≤ sqNorm docs d := sqNorm_nonneg docs d
  have key : ∀ t, tfidfVec docs d t * tfidfVec docs d t =
      tfidfRaw docs d t ^ 2 / sqNorm docs d := by
    intro t
    unfold tfidfVec l2norm
    rw [div_mul_div_comm, Real.mul_self_sqrt hS, sq]
  have hsum : dotOver (vocab docs) (tfidfVec docs d) (tfidfVec docs d) =
      sqNorm docs d / sqNorm docs d := by
    unfold dotOver
    rw [List.map_congr_left (fun t _ => key t)]
    simp only [div_eq_mul_inv]
    rw [List.sum_map_mul_right]
    rfl
  rw [hsum]
  by_cases hz : sqNorm docs d = 0
  · rw [if_pos hz, hz, div_zero]
  · rw [if_neg hz, div_self hz]

/-- `cosine_similarity` on two rows of the transformed matrix reduces to
their plain dot product: the rows are already L2-normalized, and an
all-zero row gives similarity `0` on both sides. -/
theorem cosineSim_eq_dotOver (docs : List String) (a b : String) :
    cosineSim docs a b = dotOver (vocab docs) (tfidfVec docs a) (tfidfVec docs b) := by
  unfold cosineSim
  by_cases ha : sqNorm docs a = 0
  · rw [dotOver_zero_left _ _ _ (tfidfVec_of_sqNorm_zero docs a ha), zero_div]
  · by_cases hb : sqNorm docs b = 0
    · rw [dotOver_zero_right _ _ _ (tfidfVec_of_sqNorm_zero docs b hb), zero_div]
    · rw [dotOver_self_tfidfVec docs a, dotOver_self_tfidfVec docs b, if_neg ha, if_neg hb,
        Real.sqrt_one, mul_one, div_one]

/-- C1: the source pipeline — fit on `[query] + texts` (query first),
weight each term by `tf × (log((1+N)/(1+df)) + 1)`, L2-normalize each
document vector, score each corpus document by cosine similarity against
document 0 — computes exactly the spec-side scores, and its weights and
normalized vectors agree with the spec formulas term by term. -/
theorem similar_scores_match_spec :
    ∀ (q : String) (texts : List String),
      similarScores q texts = spec_scores q texts ∧
      (∀ d t, tfidfRaw (q :: texts) d t = spec_weight (q :: texts) d t) ∧
      (∀ d t, tfidfVec (q :: texts) d t = spec_vec (q :: texts) d t) := by
  intro q texts
  have hv : ∀ (docs : List String) (d : String), tfidfVec docs d = spec_vec docs d := by
    intro docs d
    funext t
    rfl
  refine ⟨?_, fun d t => rfl, fun d t => by rw [hv]⟩
  unfold similarScores spec_scores
  apply List.map_congr_left
  intro d _
  rw [cosineSim_eq_dotOver, hv, hv]

/-! ## Ranking lemmas: the stable descending sort -/

/-- Inserting permutes to consing. -/
theorem insertDesc_perm (x : String × ℝ) :
    ∀ l, (insertDesc x l).Perm (x :: l)
  | [] => List.Perm.refl _
  | y :: ys => by
    unfold insertDesc
    by_cases h : y.2 ≤ x.2
    · rw [if_pos h]
    · rw [if_neg h]
      exact ((insertDesc_perm x ys).cons y).trans (List.Perm.swap x y ys)

/-- The sort permutes its input. -/
theorem sortDesc_perm : ∀ l, (sortDesc l).Perm l
  | [] => List.Perm.refl _
  | x :: xs => (insertDesc_perm x (sortDesc xs)).trans ((sortDesc_perm xs).cons x)

/-- Insertion preserves descending sortedness. -/
theorem insertDesc_sorted (x : String × ℝ) :
    ∀ l, List.Pairwise (fun a b : String × ℝ => b.2 ≤ a.2) l →
      List.Pairwise (fun a b : String × ℝ => b.2 ≤ a.2) (insertDesc x l) := by
  intro l
  induction l with
  | nil => intro _; simp [insertDesc]
  | cons y ys ih =>
    intro h
    unfold insertDesc
    by_cases hc : y.2 ≤ x.2
    · rw [if_pos hc]
      refine List.Pairwise.cons ?_ h
      intro z hz
      rcases List.mem_cons.mp hz with rfl | hz2
      · exact hc
      · exact le_trans ((List.pairwise_cons.mp h).1 z hz2) hc
    · rw [if_neg hc]
      refine List.Pairwise.cons ?_ (ih (List.pairwise_cons.mp h).2)
      intro z hz
      rcases List.mem_cons.mp ((insertDesc_perm x ys).mem_iff.mp hz) with rfl | hz3
      · exact le_of_lt (not_le.mp hc)
      · exact (List.pairwise_cons.mp h).1 z hz3

/-- The sort output is descending in the score component. -/
theorem sortDesc_sorted :
    ∀ l, List.Pairwise (fun a b : String × ℝ => b.2 ≤ a.2) (sortDesc l)
  | [] => List.Pairwise.nil
  | x :: xs => insertDesc_sorted x _ (sortDesc_sorted xs)

/-- Stability of insertion, phrased per score class: restricted to the
elements of any one score `s`, inserting behaves exactly like consing. -/
theorem insertDesc_filter_class (x : String × ℝ) (s : ℝ) :
    ∀ l, (insertDesc x l).filter (fun r => decide (r.2 = s)) =
      ((x :: l).filter (fun r => decide (r.2 = s))) := by
  intro l
  induction l with
  | nil => rfl
  | cons y ys ih =>
    unfold insertDesc
    by_cases hc : y.2 ≤ x.2
    · rw [if_pos hc]
    · rw [if_neg hc]
      by_cases hy : y.2 = s
      · have hx : ¬ x.2 = s := by
          intro hxs
          exact absurd (le_of_eq (hy.trans hxs.symm)) hc
        simp [List.filter_cons, hy, hx, ih]
      · by_cases hx : x.2 = s
        · simp [List.filter_cons, hy, hx, ih]
        · simp [List.filter_cons, hy, hx, ih]

/-- Stability of the sort: within any one score class, the sorted output
lists the elements in their original relative order. -/
theorem sortDesc_filter_class (s : ℝ) :
    ∀ l, (sortDesc l).filter (fun r => decide (r.2 = s)) =
      l.filter (fun r => decide (r.2 = s)) := by
  intro l
  induction l with
  | nil => rfl
  | cons x xs ih =>
    show (insertDesc x (sortDesc xs)).filter _ = _
    rw [insertDesc_filter_class, List.filter_cons, List.filter_cons, ih]

/-- C5: the printed result list of `similar` consists of exactly the
corpus documents scoring at least the threshold (inclusive), in
descending score order, with score ties listed in their pre-sort
relative order (the sort is stable). -/
theorem similar_results_ranking :
    ∀ (q : String) (names texts : List String) (thr : ℝ),
      (similarResults q names texts thr).Perm
        ((similarPairs q names texts).filter (fun r => decide (thr ≤ r.2))) ∧
      List.Pairwise (fun a b : String × ℝ => b.2 ≤ a.2) (similarResults q names texts thr) ∧
      (∀ s : ℝ, (similarResults q names texts thr).filter (fun r => decide (r.2 = s)) =
        ((similarPairs q names texts).filter (fun r => decide (thr ≤ r.2))).filter
          (fun r => decide (r.2 = s))) := by
  intro q names texts thr
  refine ⟨?_, ?_, ?_⟩
  · exact (sortDesc_perm (similarPairs q names texts)).filter _
  · exact (sortDesc_sorted (similarPairs q names texts)).filter _
  · intro s
    show (List.filter _ (List.filter _ (sortDesc (similarPairs q names texts)))) = _
    rw [List.filter_filter, List.filter_filter]
    by_cases hts : thr ≤ s
    · have hpt : ∀ r : String × ℝ,
          (decide (r.2 = s) && decide (thr ≤ r.2)) = decide (r.2 = s) := by
        intro r
        by_cases hr : r.2 = s
        · simp [hr, hts]
        · simp [hr]
      rw [List.filter_congr (fun r _ => hpt r), List.filter_congr (fun r _ => hpt r)]
      exact sortDesc_filter_class s (similarPairs q names texts)
    · have hpt : ∀ r : String × ℝ,
          (decide (r.2 = s) && decide (thr ≤ r.2)) = false := by
        intro r
        by_cases hr : r.2 = s
        · simp [hr, hts]
        · simp [hr]
      rw [List.filter_congr (fun r _ => hpt r), List.filter_congr (fun r _ => hpt r)]
      simp

/-- C10 witness: a subdirectory entry matched by name, reported by
filename and insensitive to its (unread) content. -/
theorem search_checks_every_entry_witness :
    ("SubDir", MatchKind.byFilename) ∈ search "sub" [⟨"SubDir", false, none⟩] ∧
      searchEntry "sub" ⟨"SubDir", false, none⟩ = some MatchKind.byFilename ∧
      searchEntry "sub" ⟨"SubDir", false, none⟩ = searchEntry "sub" ⟨"SubDir", true, some "zz"⟩ := by
  refine ⟨?_, ?_, ?_⟩
  · exact (search_checks_every_entry "sub" [⟨"SubDir", false, none⟩] ⟨"SubDir", false, none⟩).1
      (by decide) (by decide)
  · exact (search_checks_every_entry "sub" [] ⟨"SubDir", false, none⟩).2.1 (by decide)
  · exact (search_checks_every_entry "sub" [] ⟨"SubDir", false, none⟩).2.2.1
      false none true (some "zz") (by decide)

end Oct
